import Mathlib

/-!
Verification of the stale-record reconciliation engine ("Purger") of
`poc_iot_verifier/src/purger.rs`.

The embedding translates the purger module directly:

* the threshold constants `BEACON_STALE_PERIOD`, `WITNESS_STALE_PERIOD`,
  `ENTROPY_STALE_PERIOD`, the poll period `DB_POLL_TIME` and the worker
  cap `PURGER_WORKERS` are copied literally;
* the per-record functions `handle_purged_beacon` / `handle_purged_witness`
  become pure functions over an environment of external collaborators
  (protobuf decode, ingest-id computation, file-sink submission, DB delete),
  returning the Rust `Result` together with the trace of externally visible
  events they issue, in order;
* `handle_db_tick` becomes a pure function over the same kind of
  environment, with the outcomes of the two `tokio::select!` races given as
  environment booleans (`true` = the shutdown branch won the race);
* the composition `for_each_concurrent(PURGER_WORKERS, ...)` raced against
  the shutdown listener is additionally given a small-step transition
  system (`Step`), faithful to tokio semantics: `tokio::select!` polls both
  branches and, when one branch completes, the other branch's future is
  dropped, which cancels the `for_each_concurrent` future and with it every
  in-flight per-record future at its current suspension point;
* the scheduler loop `Purger::run` becomes a recursion over a finite
  schedule of loop iterations (the `is_triggered` check at the top of the
  loop and the outcome of the timer-vs-shutdown select).
-/

namespace Purger

/-- Errors of the crate-level `Result` (anyhow-style); their identity is
irrelevant to the purger, so they are modelled as strings. -/
abbrev PError := String

/-- Timestamps (`DateTime<Utc>`) as integers. -/
abbrev Timestamp := Int

/-- `DB_POLL_TIME = Duration::from_secs(60 * 35)`, in seconds. -/
def DB_POLL_TIME : Nat := 60 * 35

/-- `const PURGER_WORKERS: usize = 40` — the `for_each_concurrent` cap. -/
def PURGER_WORKERS : Nat := 40

/-- `const BEACON_STALE_PERIOD: i64 = 60 * 90` (seconds). -/
def BEACON_STALE_PERIOD : Int := 60 * 90

/-- `const WITNESS_STALE_PERIOD: i64 = BEACON_STALE_PERIOD + (15 * 60)`. -/
def WITNESS_STALE_PERIOD : Int := BEACON_STALE_PERIOD + (15 * 60)

/-- `const ENTROPY_STALE_PERIOD: i64 = BEACON_STALE_PERIOD + (15 * 60)`. -/
def ENTROPY_STALE_PERIOD : Int := BEACON_STALE_PERIOD + (15 * 60)

/-- The DB row `poc_report::Report` as read by the purger: the purger only
touches its opaque serialized payload `report_data`. -/
structure Report where
  report_data : List Nat
  deriving DecidableEq, Repr

/-- Opaque decoded beacon payload (`LoraBeaconReport`). -/
structure LoraBeaconReport where
  data : Nat
  deriving DecidableEq, Repr

/-- Opaque decoded witness payload (`LoraWitnessReport`). -/
structure LoraWitnessReport where
  data : Nat
  deriving DecidableEq, Repr

/-- `file_store::lora_beacon_report::LoraBeaconIngestReport`. -/
structure LoraBeaconIngestReport where
  received_timestamp : Timestamp
  report : LoraBeaconReport
  deriving DecidableEq, Repr

/-- `file_store::lora_witness_report::LoraWitnessIngestReport`. -/
structure LoraWitnessIngestReport where
  received_timestamp : Timestamp
  report : LoraWitnessReport
  deriving DecidableEq, Repr

/-- `helium_proto::...::InvalidReason` (the variants the verifier crate can
stamp; the purger only ever uses `Stale`). -/
inductive InvalidReason
  | ReasonNone
  | Stale
  | GatewayNotFound
  | EntropyExpired
  deriving DecidableEq, Repr

/-- `helium_proto::...::InvalidParticipantSide`. -/
inductive InvalidParticipantSide
  | SideNone
  | Beaconer
  | Witness
  deriving DecidableEq, Repr

/-- `file_store::lora_invalid_poc::LoraInvalidBeaconReport` — exactly the
fields the purger sets at purger.rs lines 203-208.  Note the type has no
participant-side field: only witness envelopes carry one. -/
structure LoraInvalidBeaconReport where
  received_timestamp : Timestamp
  reason : InvalidReason
  report : LoraBeaconReport
  deriving DecidableEq, Repr

/-- `file_store::lora_invalid_poc::LoraInvalidWitnessReport` — exactly the
fields the purger sets at purger.rs lines 230-235. -/
structure LoraInvalidWitnessReport where
  received_timestamp : Timestamp
  report : LoraWitnessReport
  reason : InvalidReason
  participant_side : InvalidParticipantSide
  deriving DecidableEq, Repr

/-- Externally visible actions of a reconciliation pass, in issue order. -/
inductive Event
  | queryBeacons (cutoff : Int)
  | queryWitnesses (cutoff : Int)
  | sinkAcceptBeacon (e : LoraInvalidBeaconReport)
  | sinkAcceptWitness (e : LoraInvalidWitnessReport)
  | deleteReport (id : List Nat)
  | purgeEntropy (cutoff : Int)
  deriving DecidableEq, Repr

/-- The external collaborators of one per-record reconciliation:
protobuf decode + `try_into` (`LoraBeaconIngestReportV1::decode(..)?.try_into()?`),
the `ingest_id()` trait method, the awaited `file_sink_write!` submissions
and `Report::delete_report`.  All are outside this module (other crates /
other files of the repository) and are therefore oracle parameters. -/
structure RecordEnv where
  decodeBeacon : List Nat → Except PError LoraBeaconIngestReport
  beaconIngestId : LoraBeaconIngestReport → List Nat
  beaconSink : LoraInvalidBeaconReport → Except PError Unit
  decodeWitness : List Nat → Except PError LoraWitnessIngestReport
  witnessIngestId : LoraWitnessIngestReport → List Nat
  witnessSink : LoraInvalidWitnessReport → Except PError Unit
  deleteReport : List Nat → Except PError Unit

/-- The invalid-beacon envelope built at purger.rs lines 203-208. -/
def mkInvalidBeacon (beacon_report : LoraBeaconIngestReport) : LoraInvalidBeaconReport :=
  { received_timestamp := beacon_report.received_timestamp
    reason := InvalidReason.Stale
    report := beacon_report.report }

/-- The invalid-witness envelope built at purger.rs lines 230-235. -/
def mkInvalidWitness (witness_report : LoraWitnessIngestReport) : LoraInvalidWitnessReport :=
  { received_timestamp := witness_report.received_timestamp
    report := witness_report.report
    reason := InvalidReason.Stale
    participant_side := InvalidParticipantSide.Witness }

/-- `Purger::handle_purged_beacon` (purger.rs lines 192-218): decode the
stored payload, build the stale-invalid envelope, await the sink
submission, and only then delete the row by ingest id.  Each `?` becomes an
early error return; the trace records the accepted submission and the
issued delete. -/
def handle_purged_beacon (env : RecordEnv) (db_beacon : Report) :
    Except PError Unit × List Event :=
  match env.decodeBeacon db_beacon.report_data with
  | Except.error e => (Except.error e, [])
  | Except.ok beacon_report =>
    let beacon_id := env.beaconIngestId beacon_report
    let invalid_beacon_proto := mkInvalidBeacon beacon_report
    match env.beaconSink invalid_beacon_proto with
    | Except.error e => (Except.error e, [])
    | Except.ok _ =>
      (env.deleteReport beacon_id,
        [Event.sinkAcceptBeacon invalid_beacon_proto, Event.deleteReport beacon_id])

/-- `Purger::handle_purged_witness` (purger.rs lines 220-247). -/
def handle_purged_witness (env : RecordEnv) (db_witness : Report) :
    Except PError Unit × List Event :=
  match env.decodeWitness db_witness.report_data with
  | Except.error e => (Except.error e, [])
  | Except.ok witness_report =>
    let witness_id := env.witnessIngestId witness_report
    let invalid_witness_report_proto := mkInvalidWitness witness_report
    match env.witnessSink invalid_witness_report_proto with
    | Except.error e => (Except.error e, [])
    | Except.ok _ =>
      (env.deleteReport witness_id,
        [Event.sinkAcceptWitness invalid_witness_report_proto, Event.deleteReport witness_id])

/-- The concatenated event trace of the beacon worker pool when the pool is
allowed to run to completion: every record is handled by
`handle_purged_beacon`, each worker catching (and only logging) its own
record's error (purger.rs lines 140-151).  Completing the pool produces the
per-record traces in some interleaving; since per-record contents are
independent, the completed pool's per-record effects are those of the map
below. -/
def beacon_handler_trace (env : RecordEnv) (rs : List Report) : List Event :=
  (rs.map (fun r => (handle_purged_beacon env r).2)).flatten

/-- Witness analogue of `beacon_handler_trace` (purger.rs lines 168-179). -/
def witness_handler_trace (env : RecordEnv) (rs : List Report) : List Event :=
  (rs.map (fun r => (handle_purged_witness env r).2)).flatten

/-- Environment of one `handle_db_tick` call.  The stale-set queries and
the entropy purge live in other files of the crate (`poc_report.rs`,
`entropy.rs`) and are oracle parameters; the booleans give, for each of the
two `tokio::select!` races of the pass, whether the shutdown branch won
(`true`), in which case the pool future was dropped and the events it had
already emitted are the given partial trace. -/
structure TickEnv where
  base_stale_period : Int
  get_stale_pending_beacons : Int → Except PError (List Report)
  get_stale_pending_witnesses : Int → Except PError (List Report)
  recordEnv : RecordEnv
  entropy_purge : Int → Except PError Nat
  beaconSelectShutdown : Bool
  witnessSelectShutdown : Bool
  beaconCancelTrace : List Event
  witnessCancelTrace : List Event

/-- `Purger::handle_db_tick` (purger.rs lines 121-190): query stale
beacons (`?` propagates the error), race the beacon pool against shutdown,
query stale witnesses (`?`), race the witness pool against shutdown, then
unconditionally run the entropy purge with its result discarded
(`let _ = Entropy::purge(..)`), and return `Ok(())`. -/
def handle_db_tick (env : TickEnv) : Except PError Unit × List Event :=
  let beacon_stale_period := env.base_stale_period + BEACON_STALE_PERIOD
  match env.get_stale_pending_beacons beacon_stale_period with
  | Except.error e => (Except.error e, [Event.queryBeacons beacon_stale_period])
  | Except.ok stale_beacons =>
    let beaconTrace :=
      if env.beaconSelectShutdown then env.beaconCancelTrace
      else beacon_handler_trace env.recordEnv stale_beacons
    let witness_stale_period := env.base_stale_period + WITNESS_STALE_PERIOD
    match env.get_stale_pending_witnesses witness_stale_period with
    | Except.error e =>
      (Except.error e,
        Event.queryBeacons beacon_stale_period :: beaconTrace
          ++ [Event.queryWitnesses witness_stale_period])
    | Except.ok stale_witnesses =>
      let witnessTrace :=
        if env.witnessSelectShutdown then env.witnessCancelTrace
        else witness_handler_trace env.recordEnv stale_witnesses
      let entropy_cutoff := env.base_stale_period + ENTROPY_STALE_PERIOD
      let _ := env.entropy_purge entropy_cutoff
      (Except.ok (),
        Event.queryBeacons beacon_stale_period :: beaconTrace
          ++ Event.queryWitnesses witness_stale_period :: witnessTrace
          ++ [Event.purgeEntropy entropy_cutoff])

/-- `tokio::time::MissedTickBehavior`. -/
inductive MissedTickBehavior
  | Burst
  | Delay
  | Skip
  deriving DecidableEq, Repr

/-- An interval timer's configuration. -/
structure TimerConfig where
  period_secs : Nat
  missed_tick_behavior : MissedTickBehavior
  deriving DecidableEq, Repr

/-- The timer built at purger.rs lines 65-66:
`time::interval(DB_POLL_TIME)` with `MissedTickBehavior::Skip`. -/
def run_db_timer : TimerConfig :=
  { period_secs := DB_POLL_TIME, missed_tick_behavior := MissedTickBehavior.Skip }

/-- One iteration of the `loop` in `Purger::run` (purger.rs lines 101-116):
the result of `shutdown.is_triggered()` at the top of the loop, then — if
the loop did not break — which branch of the `tokio::select!` resolved
(`true` = the shutdown branch), and the environment the pass would run in
if the timer tick fired. -/
structure IterationInput where
  shutdown_triggered : Bool
  select_shutdown : Bool
  tickEnv : TickEnv

/-- Outcome of `Purger::run` on a finite schedule of iterations. -/
inductive RunOutcome
  | stopped
  | fatal (e : PError)
  | outOfFuel
  deriving DecidableEq, Repr

/-- The scheduler loop of `Purger::run` (purger.rs lines 101-118) over a
finite schedule: break (returning `Ok`) when shutdown is already triggered
at the top of the loop or when the shutdown branch wins the select;
otherwise run `handle_db_tick` for the tick, returning its error
immediately if it fails ("fatal purger error", lines 110-113).  The second
component counts the passes executed; passes run sequentially, one per
consumed tick. -/
def run : List IterationInput → RunOutcome × Nat
  | [] => (RunOutcome.outOfFuel, 0)
  | it :: rest =>
    if it.shutdown_triggered then (RunOutcome.stopped, 0)
    else if it.select_shutdown then (RunOutcome.stopped, 0)
    else
      match handle_db_tick it.tickEnv with
      | (Except.error e, _) => (RunOutcome.fatal e, 1)
      | (Except.ok _, _) =>
        let r := run rest
        (r.1, r.2 + 1)

/-!
## Small-step model of the worker pool raced against shutdown

`stream::iter(stale_set).for_each_concurrent(PURGER_WORKERS, worker)` raced
via `tokio::select!` against the shutdown listener (purger.rs lines
140-157 and 168-185).  A per-record worker has exactly two suspension
points: the awaited sink submission and the awaited DB delete; the protobuf
decode is synchronous and happens when the worker future is first polled.
When the worker observes the sink's `Ok` it proceeds synchronously to issue
the delete and suspends on it.  `tokio::select!` drops the unfinished
branch when the other branch completes: if the shutdown branch wins the
race, the `for_each_concurrent` future is dropped, cancelling every
in-flight worker at its current suspension point and launching no further
workers.
-/

/-- The fate one record's oracles have in store for it: whether its decode,
its sink submission and its delete succeed. -/
structure RecordSpec where
  decodeOk : Bool
  sinkOk : Bool
  deleteOk : Bool
  deriving DecidableEq, Repr

/-- Where a launched worker future currently is. -/
inductive TaskPhase
  | awaitingSink
  | awaitingDelete
  | finished
  deriving DecidableEq, Repr

/-- A launched worker: its record's oracle outcomes, its phase, and which
externally visible effects have happened (`archived` = sink submission
accepted and observed, `deleteIssued` = delete query issued, `deleteDone`
= delete resolved successfully). -/
structure Task where
  spec : RecordSpec
  phase : TaskPhase
  archived : Bool
  deleteIssued : Bool
  deleteDone : Bool
  deriving DecidableEq, Repr

/-- State of one pool-vs-shutdown race: the not-yet-launched suffix of the
stale set, the launched workers, whether the shutdown signal has been
triggered, whether the pool future has been dropped, and whether the
`tokio::select!` has returned. -/
structure PoolState where
  remaining : List RecordSpec
  tasks : List Task
  shutdown : Bool
  dropped : Bool
  returned : Bool
  deriving DecidableEq, Repr

/-- A worker is in flight while suspended at one of its await points. -/
def Task.inFlight (t : Task) : Bool :=
  match t.phase with
  | TaskPhase.awaitingSink => true
  | TaskPhase.awaitingDelete => true
  | TaskPhase.finished => false

/-- Number of in-flight workers. -/
def inFlightCount (s : PoolState) : Nat :=
  (s.tasks.filter Task.inFlight).length

/-- First poll of a worker future: the synchronous decode either succeeds —
the worker issues its sink submission and suspends — or fails, in which
case the worker's `match`/`tracing::warn!` catches the error and the
worker is already finished. -/
def launchTask (r : RecordSpec) : Task :=
  if r.decodeOk then
    { spec := r, phase := TaskPhase.awaitingSink, archived := false,
      deleteIssued := false, deleteDone := false }
  else
    { spec := r, phase := TaskPhase.finished, archived := false,
      deleteIssued := false, deleteDone := false }

/-- The sink submission resolves and the worker is polled: on `Ok` it
proceeds synchronously to issue the delete and suspends on it; on `Err`
the worker's `match` catches the error and the worker finishes. -/
def sinkResume (t : Task) : Task :=
  if t.spec.sinkOk then
    { t with phase := TaskPhase.awaitingDelete, archived := true, deleteIssued := true }
  else
    { t with phase := TaskPhase.finished }

/-- The delete resolves; either way the worker finishes (a delete error is
caught by the worker's `match` and only logged). -/
def deleteResume (t : Task) : Task :=
  { t with phase := TaskPhase.finished, deleteDone := t.spec.deleteOk }

/-- One step of the pool-vs-shutdown race. -/
inductive Step : PoolState → PoolState → Prop
  | launch (s : PoolState) (r : RecordSpec) (rest : List RecordSpec) :
      s.remaining = r :: rest → s.dropped = false → s.returned = false →
      inFlightCount s < PURGER_WORKERS →
      Step s { s with remaining := rest, tasks := s.tasks ++ [launchTask r] }
  | sinkStep (s : PoolState) (j : Nat) (t : Task) :
      s.tasks[j]? = some t → t.phase = TaskPhase.awaitingSink →
      s.dropped = false → s.returned = false →
      Step s { s with tasks := s.tasks.set j (sinkResume t) }
  | deleteStep (s : PoolState) (j : Nat) (t : Task) :
      s.tasks[j]? = some t → t.phase = TaskPhase.awaitingDelete →
      s.dropped = false → s.returned = false →
      Step s { s with tasks := s.tasks.set j (deleteResume t) }
  | handlerComplete (s : PoolState) :
      s.remaining = [] → (∀ t ∈ s.tasks, t.phase = TaskPhase.finished) →
      s.dropped = false → s.returned = false →
      Step s { s with returned := true }
  | shutdownFire (s : PoolState) :
      s.shutdown = false →
      Step s { s with shutdown := true }
  | shutdownWin (s : PoolState) :
      s.shutdown = true → s.returned = false →
      Step s { s with dropped := true, returned := true }

/-- Initial state of a race over the given stale set. -/
def initPool (rs : List RecordSpec) : PoolState :=
  { remaining := rs, tasks := [], shutdown := false, dropped := false, returned := false }

/-- States reachable from `initPool rs`. -/
inductive Reachable (rs : List RecordSpec) : PoolState → Prop
  | init : Reachable rs (initPool rs)
  | step {s s' : PoolState} : Reachable rs s → Step s s' → Reachable rs s'

/-- Flag/phase coherence of one worker: its effect flags are exactly what
its oracle outcomes and current phase dictate. -/
def Task.coherent (t : Task) : Bool :=
  match t.phase with
  | TaskPhase.awaitingSink =>
      t.spec.decodeOk && !t.archived && !t.deleteIssued && !t.deleteDone
  | TaskPhase.awaitingDelete =>
      t.spec.decodeOk && t.spec.sinkOk && t.archived && t.deleteIssued && !t.deleteDone
  | TaskPhase.finished =>
      (t.archived == (t.spec.decodeOk && t.spec.sinkOk)) &&
      (t.deleteIssued == (t.spec.decodeOk && t.spec.sinkOk)) &&
      (t.deleteDone == (t.spec.decodeOk && t.spec.sinkOk && t.spec.deleteOk))

lemma length_filter_set_le (p : Task → Bool) :
    ∀ (l : List Task) (j : Nat) (t t' : Task), l[j]? = some t → (p t' = true → p t = true) →
      ((l.set j t').filter p).length ≤ (l.filter p).length := by
  intro l
  induction l with
  | nil => intro j t t' h _; simp at h
  | cons x xs ih =>
    intro j t t' h himp
    cases j with
    | zero =>
      simp at h
      subst h
      cases hpt : p t' with
      | true =>
        have hpx := himp hpt
        simp [List.set, List.filter_cons, hpt, hpx]
      | false =>
        cases hpx : p x with
        | true => simp [List.set, List.filter_cons, hpt, hpx]
        | false => simp [List.set, List.filter_cons, hpt, hpx]
    | succ j =>
      simp at h
      have := ih j t t' h himp
      cases hpx : p x <;> simp [List.set, List.filter_cons, hpx] <;> omega

lemma launchTask_coherent (r : RecordSpec) : (launchTask r).coherent = true := by
  obtain ⟨dOk, sOk, delOk⟩ := r
  cases dOk <;> cases sOk <;> cases delOk <;> decide

lemma sinkResume_coherent (t : Task) (hp : t.phase = TaskPhase.awaitingSink)
    (hc : t.coherent = true) : (sinkResume t).coherent = true := by
  obtain ⟨⟨dOk, sOk, delOk⟩, ph, ar, di, dd⟩ := t
  simp only at hp
  subst hp
  revert hc
  cases dOk <;> cases sOk <;> cases delOk <;> cases ar <;> cases di <;> cases dd <;> decide

lemma deleteResume_coherent (t : Task) (hp : t.phase = TaskPhase.awaitingDelete)
    (hc : t.coherent = true) : (deleteResume t).coherent = true := by
  obtain ⟨⟨dOk, sOk, delOk⟩, ph, ar, di, dd⟩ := t
  simp only at hp
  subst hp
  revert hc
  cases dOk <;> cases sOk <;> cases delOk <;> cases ar <;> cases di <;> cases dd <;> decide

lemma coherent_archived_of_deleteIssued (t : Task) (hc : t.coherent = true)
    (hd : t.deleteIssued = true) : t.archived = true := by
  obtain ⟨⟨dOk, sOk, delOk⟩, ph, ar, di, dd⟩ := t
  revert hc hd
  cases ph <;> cases dOk <;> cases sOk <;> cases delOk <;> cases ar <;> cases di <;>
    cases dd <;> decide

/-- The inductive invariant of the pool-vs-shutdown race. -/
structure PoolInv (s : PoolState) : Prop where
  cap : inFlightCount s ≤ PURGER_WORKERS
  coh : ∀ t ∈ s.tasks, t.coherent = true
  ret : s.returned = true →
    s.dropped = true ∨ ((∀ t ∈ s.tasks, t.phase = TaskPhase.finished) ∧ s.remaining = [])
  drp : s.dropped = true → s.returned = true

lemma pool_inv {rs : List RecordSpec} {s : PoolState} (h : Reachable rs s) : PoolInv s := by
  induction h with
  | init =>
    refine ⟨?_, ?_, ?_, ?_⟩ <;> simp [initPool, inFlightCount]
  | @step s s' _ hst ih =>
    obtain ⟨cap, coh, ret, drp⟩ := ih
    cases hst with
    | launch r rest hrem hdrop hret hcap =>
      refine ⟨?_, ?_, ?_, ?_⟩
      · simp only [inFlightCount, List.filter_append, List.length_append] at *
        have hone : (List.filter Task.inFlight [launchTask r]).length ≤ 1 := by
          cases hd : r.decodeOk <;> simp [launchTask, hd, Task.inFlight, List.filter_cons]
        omega
      · intro t ht
        simp only [List.mem_append, List.mem_singleton] at ht
        rcases ht with ht | ht
        · exact coh t ht
        · exact ht ▸ launchTask_coherent r
      · intro hr; simp [hret] at hr
      · intro hd; simp [hdrop] at hd
    | sinkStep j t hj hp hdrop hret =>
      refine ⟨?_, ?_, ?_, ?_⟩
      · simp only [inFlightCount] at *
        have := length_filter_set_le Task.inFlight s.tasks j t (sinkResume t) hj
          (fun _ => by simp [Task.inFlight, hp])
        omega
      · intro u hu
        rcases List.mem_or_eq_of_mem_set hu with hu | hu
        · exact coh u hu
        · have hmem : t ∈ s.tasks := by
            obtain ⟨hlt, he⟩ := List.getElem?_eq_some.mp hj
            exact he ▸ List.getElem_mem hlt
          exact hu ▸ sinkResume_coherent t hp (coh t hmem)
      · intro hr; simp [hret] at hr
      · intro hd; simp [hdrop] at hd
    | deleteStep j t hj hp hdrop hret =>
      refine ⟨?_, ?_, ?_, ?_⟩
      · simp only [inFlightCount] at *
        have := length_filter_set_le Task.inFlight s.tasks j t (deleteResume t) hj
          (fun _ => by simp [Task.inFlight, hp])
        omega
      · intro u hu
        rcases List.mem_or_eq_of_mem_set hu with hu | hu
        · exact coh u hu
        · have hmem : t ∈ s.tasks := by
            obtain ⟨hlt, he⟩ := List.getElem?_eq_some.mp hj
            exact he ▸ List.getElem_mem hlt
          exact hu ▸ deleteResume_coherent t hp (coh t hmem)
      · intro hr; simp [hret] at hr
      · intro hd; simp [hdrop] at hd
    | handlerComplete hrem hfin hdrop hret =>
      exact ⟨cap, coh, fun _ => Or.inr ⟨hfin, hrem⟩, fun _ => rfl⟩
    | shutdownFire hs =>
      exact ⟨cap, coh, ret, drp⟩
    | shutdownWin hs hret =>
      exact ⟨cap, coh, fun _ => Or.inl rfl, fun _ => rfl⟩

/-- In every reachable state of the race — whether the pool completed, was
cancelled, or is still running — a worker that has issued its delete has
had its sink submission accepted first. -/
lemma pool_write_before_delete {rs : List RecordSpec} {s : PoolState}
    (h : Reachable rs s) : ∀ t ∈ s.tasks, t.deleteIssued = true → t.archived = true :=
  fun t ht hd => coherent_archived_of_deleteIssued t ((pool_inv h).coh t ht) hd

/-- Once the pool future has been dropped, no step launches a worker or
advances one: the stale set and every worker are frozen. -/
lemma step_frozen_of_dropped {s s' : PoolState} (h : Step s s') (hd : s.dropped = true) :
    s'.tasks = s.tasks ∧ s'.remaining = s.remaining := by
  cases h with
  | launch r rest hrem hdrop hret hcap => simp [hdrop] at hd
  | sinkStep j t hj hp hdrop hret => simp [hdrop] at hd
  | deleteStep j t hj hp hdrop hret => simp [hdrop] at hd
  | handlerComplete hrem hfin hdrop hret => simp [hdrop] at hd
  | shutdownFire hs => exact ⟨rfl, rfl⟩
  | shutdownWin hs hret => exact ⟨rfl, rfl⟩

/-- If the race returned because the pool completed (it was not dropped),
then the whole stale set was launched and every worker finished, each with
exactly the disposition its own oracles dictate. -/
lemma pool_complete_normal {rs : List RecordSpec} {s : PoolState}
    (h : Reachable rs s) (hr : s.returned = true) (hd : s.dropped = false) :
    s.remaining = [] ∧ ∀ t ∈ s.tasks, t.phase = TaskPhase.finished ∧
      t.archived = (t.spec.decodeOk && t.spec.sinkOk) ∧
      t.deleteDone = (t.spec.decodeOk && t.spec.sinkOk && t.spec.deleteOk) := by
  obtain ⟨_, coh, ret, _⟩ := pool_inv h
  rcases ret hr with hcontra | ⟨hfin, hrem⟩
  · simp [hd] at hcontra
  · refine ⟨hrem, fun t ht => ?_⟩
    have hc := coh t ht
    have hp := hfin t ht
    simp only [Task.coherent, hp, Bool.and_eq_true, beq_iff_eq] at hc
    exact ⟨hp, hc.1.1, hc.2⟩

/-!
## Claim theorems
-/

lemma handle_purged_beacon_delete_index (env : RecordEnv) (r : Report) (i : Nat)
    (id : List Nat)
    (h : ((handle_purged_beacon env r).2)[i]? = some (Event.deleteReport id)) :
    ∃ br, env.decodeBeacon r.report_data = Except.ok br ∧
      env.beaconSink (mkInvalidBeacon br) = Except.ok () ∧ i = 1 ∧
      id = env.beaconIngestId br ∧
      ((handle_purged_beacon env r).2)[0]? =
        some (Event.sinkAcceptBeacon (mkInvalidBeacon br)) := by
  rcases hd : env.decodeBeacon r.report_data with e | br
  · simp [handle_purged_beacon, hd] at h
  · rcases hs : env.beaconSink (mkInvalidBeacon br) with e | u
    · simp [handle_purged_beacon, hd, hs] at h
    · cases u
      refine ⟨br, rfl, hs, ?_⟩
      simp only [handle_purged_beacon, hd, hs] at h ⊢
      rcases i with _ | _ | n
      · simp at h
      · simp at h
        exact ⟨rfl, h.symm, rfl⟩
      · simp at h

lemma handle_purged_witness_delete_index (env : RecordEnv) (r : Report) (i : Nat)
    (id : List Nat)
    (h : ((handle_purged_witness env r).2)[i]? = some (Event.deleteReport id)) :
    ∃ wr, env.decodeWitness r.report_data = Except.ok wr ∧
      env.witnessSink (mkInvalidWitness wr) = Except.ok () ∧ i = 1 ∧
      id = env.witnessIngestId wr ∧
      ((handle_purged_witness env r).2)[0]? =
        some (Event.sinkAcceptWitness (mkInvalidWitness wr)) := by
  rcases hd : env.decodeWitness r.report_data with e | wr
  · simp [handle_purged_witness, hd] at h
  · rcases hs : env.witnessSink (mkInvalidWitness wr) with e | u
    · simp [handle_purged_witness, hd, hs] at h
    · cases u
      refine ⟨wr, rfl, hs, ?_⟩
      simp only [handle_purged_witness, hd, hs] at h ⊢
      rcases i with _ | _ | n
      · simp at h
      · simp at h
        exact ⟨rfl, h.symm, rfl⟩
      · simp at h

/-- C1: for every stale report reconciled in a pass, beacon or witness, the
sink submission of its stale-invalid envelope is awaited and accepted
strictly before the delete of the row is issued: in each per-record trace a
delete event is always preceded by an accepted archive submission, and in
every reachable state of the concurrent pool race (including cancelled
ones) a worker that has issued its delete has had its archive accepted. -/
theorem C1_write_before_delete :
    (∀ (env : RecordEnv) (r : Report) (i : Nat) (id : List Nat),
        ((handle_purged_beacon env r).2)[i]? = some (Event.deleteReport id) →
        ∃ j, j < i ∧ ∃ e, ((handle_purged_beacon env r).2)[j]? =
          some (Event.sinkAcceptBeacon e))
  ∧ (∀ (env : RecordEnv) (r : Report) (i : Nat) (id : List Nat),
        ((handle_purged_witness env r).2)[i]? = some (Event.deleteReport id) →
        ∃ j, j < i ∧ ∃ e, ((handle_purged_witness env r).2)[j]? =
          some (Event.sinkAcceptWitness e))
  ∧ (∀ (rs : List RecordSpec) (s : PoolState), Reachable rs s →
        ∀ t ∈ s.tasks, t.deleteIssued = true → t.archived = true) := by
  refine ⟨?_, ?_, fun rs s h => pool_write_before_delete h⟩
  · intro env r i id h
    obtain ⟨br, _, _, hi, _, h0⟩ := handle_purged_beacon_delete_index env r i id h
    exact ⟨0, by omega, mkInvalidBeacon br, h0⟩
  · intro env r i id h
    obtain ⟨wr, _, _, hi, _, h0⟩ := handle_purged_witness_delete_index env r i id h
    exact ⟨0, by omega, mkInvalidWitness wr, h0⟩

/-- Concrete collaborators for witness theorems: decodes always succeed,
the sinks accept, the delete succeeds. -/
def testRecordEnv : RecordEnv :=
  { decodeBeacon := fun _ => Except.ok { received_timestamp := 5, report := { data := 3 } }
    beaconIngestId := fun _ => [1, 2]
    beaconSink := fun _ => Except.ok ()
    decodeWitness := fun _ => Except.ok { received_timestamp := 7, report := { data := 4 } }
    witnessIngestId := fun _ => [9]
    witnessSink := fun _ => Except.ok ()
    deleteReport := fun _ => Except.ok () }

/-- A concrete stale DB row. -/
def testReport : Report := { report_data := [0] }

/-- C1 witness: at the concrete record and environment the delete event at
index 1 is preceded by the accepted archive submission. -/
theorem C1_write_before_delete_witness :
    ∃ j, j < 1 ∧ ∃ e, ((handle_purged_beacon testRecordEnv testReport).2)[j]? =
      some (Event.sinkAcceptBeacon e) :=
  C1_write_before_delete.1 testRecordEnv testReport 1 [1, 2] (by decide)

/-- C2: the delete is executed only when both the decode and the sink
submission succeeded; a decode failure or a sink failure makes the
per-record function return that error with no event issued, leaving the
row in the store. -/
theorem C2_failure_leaves_row :
    (∀ (env : RecordEnv) (r : Report) (e : PError),
        env.decodeBeacon r.report_data = Except.error e →
        handle_purged_beacon env r = (Except.error e, []))
  ∧ (∀ (env : RecordEnv) (r : Report) (br : LoraBeaconIngestReport) (e : PError),
        env.decodeBeacon r.report_data = Except.ok br →
        env.beaconSink (mkInvalidBeacon br) = Except.error e →
        handle_purged_beacon env r = (Except.error e, []))
  ∧ (∀ (env : RecordEnv) (r : Report) (i : Nat) (id : List Nat),
        ((handle_purged_beacon env r).2)[i]? = some (Event.deleteReport id) →
        ∃ br, env.decodeBeacon r.report_data = Except.ok br ∧
          env.beaconSink (mkInvalidBeacon br) = Except.ok ())
  ∧ (∀ (env : RecordEnv) (r : Report) (e : PError),
        env.decodeWitness r.report_data = Except.error e →
        handle_purged_witness env r = (Except.error e, []))
  ∧ (∀ (env : RecordEnv) (r : Report) (wr : LoraWitnessIngestReport) (e : PError),
        env.decodeWitness r.report_data = Except.ok wr →
        env.witnessSink (mkInvalidWitness wr) = Except.error e →
        handle_purged_witness env r = (Except.error e, []))
  ∧ (∀ (env : RecordEnv) (r : Report) (i : Nat) (id : List Nat),
        ((handle_purged_witness env r).2)[i]? = some (Event.deleteReport id) →
        ∃ wr, env.decodeWitness r.report_data = Except.ok wr ∧
          env.witnessSink (mkInvalidWitness wr) = Except.ok ()) := by
  refine ⟨?_, ?_, ?_, ?_, ?_, ?_⟩
  · intro env r e hd
    simp [handle_purged_beacon, hd]
  · intro env r br e hd hs
    simp [handle_purged_beacon, hd, hs]
  · intro env r i id h
    obtain ⟨br, h1, h2, _⟩ := handle_purged_beacon_delete_index env r i id h
    exact ⟨br, h1, h2⟩
  · intro env r e hd
    simp [handle_purged_witness, hd]
  · intro env r wr e hd hs
    simp [handle_purged_witness, hd, hs]
  · intro env r i id h
    obtain ⟨wr, h1, h2, _⟩ := handle_purged_witness_delete_index env r i id h
    exact ⟨wr, h1, h2⟩

/-- A concrete environment whose beacon decode fails and whose witness sink
rejects. -/
def failRecordEnv : RecordEnv :=
  { testRecordEnv with
      decodeBeacon := fun _ => Except.error "decode failed"
      witnessSink := fun _ => Except.error "sink closed" }

/-- C2 witness: a failing decode returns the error with an empty trace. -/
theorem C2_failure_leaves_row_witness :
    handle_purged_beacon failRecordEnv testReport = (Except.error "decode failed", []) :=
  C2_failure_leaves_row.1 failRecordEnv testReport "decode failed" rfl

/-- C8: every accepted archival envelope carries `reason = Stale` and the
`received_timestamp` of the decoded ingest report; witness envelopes carry
`participant_side = Witness`; no witness-side envelope is ever produced by
the beacon path. -/
theorem C8_envelope_fields :
    (∀ (env : RecordEnv) (r : Report) (e : LoraInvalidBeaconReport),
        Event.sinkAcceptBeacon e ∈ (handle_purged_beacon env r).2 →
        e.reason = InvalidReason.Stale ∧
        ∃ br, env.decodeBeacon r.report_data = Except.ok br ∧
          e.received_timestamp = br.received_timestamp ∧ e.report = br.report)
  ∧ (∀ (env : RecordEnv) (r : Report) (e : LoraInvalidWitnessReport),
        Event.sinkAcceptWitness e ∈ (handle_purged_witness env r).2 →
        e.reason = InvalidReason.Stale ∧
        e.participant_side = InvalidParticipantSide.Witness ∧
        ∃ wr, env.decodeWitness r.report_data = Except.ok wr ∧
          e.received_timestamp = wr.received_timestamp ∧ e.report = wr.report)
  ∧ (∀ (env : RecordEnv) (r : Report) (e : LoraInvalidWitnessReport),
        Event.sinkAcceptWitness e ∉ (handle_purged_beacon env r).2) := by
  refine ⟨?_, ?_, ?_⟩
  · intro env r e he
    rcases hd : env.decodeBeacon r.report_data with er | br
    · simp [handle_purged_beacon, hd] at he
    · rcases hs : env.beaconSink (mkInvalidBeacon br) with er | u
      · simp [handle_purged_beacon, hd, hs] at he
      · simp only [handle_purged_beacon, hd, hs, List.mem_cons, List.mem_singleton] at he
        rcases he with he | he | he
        · cases he
          exact ⟨rfl, br, rfl, rfl, rfl⟩
        · cases he
        · cases he
  · intro env r e he
    rcases hd : env.decodeWitness r.report_data with er | wr
    · simp [handle_purged_witness, hd] at he
    · rcases hs : env.witnessSink (mkInvalidWitness wr) with er | u
      · simp [handle_purged_witness, hd, hs] at he
      · simp only [handle_purged_witness, hd, hs, List.mem_cons, List.mem_singleton] at he
        rcases he with he | he | he
        · cases he
          exact ⟨rfl, rfl, wr, rfl, rfl, rfl⟩
        · cases he
        · cases he
  · intro env r e he
    rcases hd : env.decodeBeacon r.report_data with er | br
    · simp [handle_purged_beacon, hd] at he
    · rcases hs : env.beaconSink (mkInvalidBeacon br) with er | u
      · simp [handle_purged_beacon, hd, hs] at he
      · simp [handle_purged_beacon, hd, hs] at he

/-- C8 witness: the concrete witness record's accepted envelope is stale,
witness-sided, and keeps the decoded timestamp. -/
theorem C8_envelope_fields_witness :
    (mkInvalidWitness { received_timestamp := 7, report := { data := 4 } }).reason
        = InvalidReason.Stale ∧
    (mkInvalidWitness { received_timestamp := 7, report := { data := 4 } }).participant_side
        = InvalidParticipantSide.Witness ∧
    ∃ wr, testRecordEnv.decodeWitness testReport.report_data = Except.ok wr ∧
      (mkInvalidWitness { received_timestamp := 7, report := { data := 4 } }).received_timestamp
        = wr.received_timestamp ∧
      (mkInvalidWitness { received_timestamp := 7, report := { data := 4 } }).report = wr.report :=
  C8_envelope_fields.2.1 testRecordEnv testReport
    (mkInvalidWitness { received_timestamp := 7, report := { data := 4 } }) (by decide)

/-- The trace equation of a pass in which both selects resolve to their
handler branch (no shutdown): the three cutoffs appear literally. -/
lemma handle_db_tick_normal_trace (env : TickEnv) (bs ws : List Report)
    (hbsel : env.beaconSelectShutdown = false) (hwsel : env.witnessSelectShutdown = false)
    (hb : env.get_stale_pending_beacons (env.base_stale_period + BEACON_STALE_PERIOD)
        = Except.ok bs)
    (hw : env.get_stale_pending_witnesses (env.base_stale_period + WITNESS_STALE_PERIOD)
        = Except.ok ws) :
    handle_db_tick env = (Except.ok (),
      Event.queryBeacons (env.base_stale_period + BEACON_STALE_PERIOD)
          :: beacon_handler_trace env.recordEnv bs
        ++ Event.queryWitnesses (env.base_stale_period + WITNESS_STALE_PERIOD)
          :: witness_handler_trace env.recordEnv ws
        ++ [Event.purgeEntropy (env.base_stale_period + ENTROPY_STALE_PERIOD)]) := by
  simp [handle_db_tick, hb, hw, hbsel, hwsel]

/-- C5: every stale cutoff used by a pass is `base_stale_period` plus the
fixed per-kind offset — 5400 s for beacons, 6300 s for witnesses and for
entropy — and the offsets satisfy witness = entropy = beacon + 900 > beacon. -/
theorem C5_stale_cutoffs :
    BEACON_STALE_PERIOD = 5400 ∧ WITNESS_STALE_PERIOD = 6300 ∧
    ENTROPY_STALE_PERIOD = 6300 ∧ WITNESS_STALE_PERIOD = ENTROPY_STALE_PERIOD ∧
    BEACON_STALE_PERIOD < WITNESS_STALE_PERIOD ∧
    WITNESS_STALE_PERIOD = BEACON_STALE_PERIOD + 900 ∧
    ENTROPY_STALE_PERIOD = BEACON_STALE_PERIOD + 900 ∧
    (∀ env : TickEnv, ((handle_db_tick env).2)[0]? =
      some (Event.queryBeacons (env.base_stale_period + BEACON_STALE_PERIOD))) ∧
    (∀ (env : TickEnv) (bs ws : List Report),
      env.beaconSelectShutdown = false → env.witnessSelectShutdown = false →
      env.get_stale_pending_beacons (env.base_stale_period + BEACON_STALE_PERIOD)
          = Except.ok bs →
      env.get_stale_pending_witnesses (env.base_stale_period + WITNESS_STALE_PERIOD)
          = Except.ok ws →
      (handle_db_tick env).2 =
        Event.queryBeacons (env.base_stale_period + BEACON_STALE_PERIOD)
            :: beacon_handler_trace env.recordEnv bs
          ++ Event.queryWitnesses (env.base_stale_period + WITNESS_STALE_PERIOD)
            :: witness_handler_trace env.recordEnv ws
          ++ [Event.purgeEntropy (env.base_stale_period + ENTROPY_STALE_PERIOD)]) := by
  refine ⟨by decide, by decide, by decide, by decide, by decide, by decide, by decide, ?_, ?_⟩
  · intro env
    rcases hb : env.get_stale_pending_beacons (env.base_stale_period + BEACON_STALE_PERIOD)
      with e | bs
    · simp [handle_db_tick, hb]
    · rcases hw : env.get_stale_pending_witnesses
          (env.base_stale_period + WITNESS_STALE_PERIOD) with e | ws
      · simp [handle_db_tick, hb, hw]
      · simp [handle_db_tick, hb, hw]
  · intro env bs ws hbsel hwsel hb hw
    rw [handle_db_tick_normal_trace env bs ws hbsel hwsel hb hw]

/-- A concrete pass environment: one stale beacon row and one stale witness
row, everything succeeding, no shutdown. -/
def testTickEnv : TickEnv :=
  { base_stale_period := 100
    get_stale_pending_beacons := fun _ => Except.ok [testReport]
    get_stale_pending_witnesses := fun _ => Except.ok [testReport]
    recordEnv := testRecordEnv
    entropy_purge := fun _ => Except.ok 1
    beaconSelectShutdown := false
    witnessSelectShutdown := false
    beaconCancelTrace := []
    witnessCancelTrace := [] }

/-- C5 witness: the concrete pass uses cutoffs 100+5400, 100+6300, 100+6300. -/
theorem C5_stale_cutoffs_witness :
    (handle_db_tick testTickEnv).2 =
      Event.queryBeacons (100 + BEACON_STALE_PERIOD)
          :: beacon_handler_trace testTickEnv.recordEnv [testReport]
        ++ Event.queryWitnesses (100 + WITNESS_STALE_PERIOD)
          :: witness_handler_trace testTickEnv.recordEnv [testReport]
        ++ [Event.purgeEntropy (100 + ENTROPY_STALE_PERIOD)] :=
  C5_stale_cutoffs.2.2.2.2.2.2.2.2 testTickEnv [testReport] [testReport] rfl rfl rfl rfl

/-- C7: an error from a stale-set query aborts the pass with that error; in
the scheduler loop a failing pass makes `run` return the error after that
single pass; per-record outcomes, by contrast, never make a pass fail. -/
theorem C7_query_errors_fatal :
    (∀ (env : TickEnv) (e : PError),
        env.get_stale_pending_beacons (env.base_stale_period + BEACON_STALE_PERIOD)
            = Except.error e →
        (handle_db_tick env).1 = Except.error e)
  ∧ (∀ (env : TickEnv) (bs : List Report) (e : PError),
        env.get_stale_pending_beacons (env.base_stale_period + BEACON_STALE_PERIOD)
            = Except.ok bs →
        env.get_stale_pending_witnesses (env.base_stale_period + WITNESS_STALE_PERIOD)
            = Except.error e →
        (handle_db_tick env).1 = Except.error e)
  ∧ (∀ (it : IterationInput) (rest : List IterationInput) (e : PError),
        it.shutdown_triggered = false → it.select_shutdown = false →
        (handle_db_tick it.tickEnv).1 = Except.error e →
        run (it :: rest) = (RunOutcome.fatal e, 1))
  ∧ (∀ (env : TickEnv) (bs ws : List Report),
        env.get_stale_pending_beacons (env.base_stale_period + BEACON_STALE_PERIOD)
            = Except.ok bs →
        env.get_stale_pending_witnesses (env.base_stale_period + WITNESS_STALE_PERIOD)
            = Except.ok ws →
        (handle_db_tick env).1 = Except.ok ()) := by
  refine ⟨?_, ?_, ?_, ?_⟩
  · intro env e hb
    simp [handle_db_tick, hb]
  · intro env bs e hb hw
    simp [handle_db_tick, hb, hw]
  · intro it rest e h1 h2 hdt
    rcases hpair : handle_db_tick it.tickEnv with ⟨res, tr⟩
    rw [hpair] at hdt
    simp only at hdt
    subst hdt
    simp [run, h1, h2, hpair]
  · intro env bs ws hb hw
    simp [handle_db_tick, hb, hw]

/-- A pass environment whose beacon stale-set query itself fails. -/
def dbDownTickEnv : TickEnv :=
  { testTickEnv with get_stale_pending_beacons := fun _ => Except.error "db down" }

/-- C7 witness: with the beacon query failing, the pass returns the query
error and the scheduler loop stops fatally after that one pass. -/
theorem C7_query_errors_fatal_witness :
    run [{ shutdown_triggered := false, select_shutdown := false, tickEnv := dbDownTickEnv }]
      = (RunOutcome.fatal "db down", 1) :=
  C7_query_errors_fatal.2.2.1
    { shutdown_triggered := false, select_shutdown := false, tickEnv := dbDownTickEnv } [] "db down"
    rfl rfl
    (C7_query_errors_fatal.1 dbDownTickEnv "db down" rfl)

/-- C9: the entropy purge is the single final event of a successful pass,
with cutoff `base + ENTROPY_STALE_PERIOD`; it submits no archival
envelope, and its outcome — success or failure — does not affect the
pass's `Ok` result (the pass result and trace do not depend on the entropy
purge oracle at all). -/
theorem C9_entropy_purge_swallowed :
    (∀ (env : TickEnv) (bs ws : List Report),
        env.get_stale_pending_beacons (env.base_stale_period + BEACON_STALE_PERIOD)
            = Except.ok bs →
        env.get_stale_pending_witnesses (env.base_stale_period + WITNESS_STALE_PERIOD)
            = Except.ok ws →
        (handle_db_tick env).1 = Except.ok () ∧
        ∃ pre, (handle_db_tick env).2 =
          pre ++ [Event.purgeEntropy (env.base_stale_period + ENTROPY_STALE_PERIOD)])
  ∧ (∀ (env : TickEnv) (f g : Int → Except PError Nat),
        handle_db_tick { env with entropy_purge := f }
          = handle_db_tick { env with entropy_purge := g }) := by
  refine ⟨?_, ?_⟩
  · intro env bs ws hb hw
    refine ⟨by simp [handle_db_tick, hb, hw], ?_⟩
    refine ⟨Event.queryBeacons (env.base_stale_period + BEACON_STALE_PERIOD)
        :: (if env.beaconSelectShutdown then env.beaconCancelTrace
            else beacon_handler_trace env.recordEnv bs)
      ++ Event.queryWitnesses (env.base_stale_period + WITNESS_STALE_PERIOD)
        :: (if env.witnessSelectShutdown then env.witnessCancelTrace
            else witness_handler_trace env.recordEnv ws), ?_⟩
    simp [handle_db_tick, hb, hw]
  · intro env f g
    rfl

/-- C9 witness: in the concrete pass the entropy purge is the last event
with cutoff 100 + 6300 and the pass result is `Ok`. -/
theorem C9_entropy_purge_swallowed_witness :
    (handle_db_tick testTickEnv).1 = Except.ok () ∧
    ∃ pre, (handle_db_tick testTickEnv).2 =
      pre ++ [Event.purgeEntropy (100 + ENTROPY_STALE_PERIOD)] :=
  C9_entropy_purge_swallowed.1 testTickEnv [testReport] [testReport] rfl rfl

/-- C10: when the shutdown branch wins the beacon-phase select,
`handle_db_tick` does not return early — it abandons the rest of the
beacon pool, still issues the stale-witness query, races the witness pool
against the already-triggered shutdown (either outcome), unconditionally
runs the entropy purge, and returns `Ok`. -/
theorem C10_no_early_return_on_shutdown :
    ∀ (env : TickEnv) (bs ws : List Report),
      env.beaconSelectShutdown = true →
      env.get_stale_pending_beacons (env.base_stale_period + BEACON_STALE_PERIOD)
          = Except.ok bs →
      env.get_stale_pending_witnesses (env.base_stale_period + WITNESS_STALE_PERIOD)
          = Except.ok ws →
      handle_db_tick env = (Except.ok (),
        Event.queryBeacons (env.base_stale_period + BEACON_STALE_PERIOD)
            :: env.beaconCancelTrace
          ++ Event.queryWitnesses (env.base_stale_period + WITNESS_STALE_PERIOD)
            :: (if env.witnessSelectShutdown then env.witnessCancelTrace
                else witness_handler_trace env.recordEnv ws)
          ++ [Event.purgeEntropy (env.base_stale_period + ENTROPY_STALE_PERIOD)]) := by
  intro env bs ws hbsel hb hw
  simp [handle_db_tick, hb, hw, hbsel]

/-- The concrete pass with shutdown winning the beacon select mid-phase:
one beacon already archived-without-delete when the pool was dropped. -/
def shutdownTickEnv : TickEnv :=
  { testTickEnv with
      beaconSelectShutdown := true
      beaconCancelTrace := [Event.sinkAcceptBeacon (mkInvalidBeacon ⟨5, ⟨3⟩⟩)] }

/-- C10 witness: the shutdown-interrupted pass still queries witnesses,
runs the witness pool, purges entropy and returns `Ok`. -/
theorem C10_no_early_return_on_shutdown_witness :
    handle_db_tick shutdownTickEnv = (Except.ok (),
      Event.queryBeacons (100 + BEACON_STALE_PERIOD)
          :: shutdownTickEnv.beaconCancelTrace
        ++ Event.queryWitnesses (100 + WITNESS_STALE_PERIOD)
          :: witness_handler_trace shutdownTickEnv.recordEnv [testReport]
        ++ [Event.purgeEntropy (100 + ENTROPY_STALE_PERIOD)]) := by
  have h := C10_no_early_return_on_shutdown shutdownTickEnv [testReport] [testReport] rfl rfl rfl
  simpa using h

/-- C6: the scheduler polls on a fixed 2100-second interval with
missed-tick policy Skip (coalesce, never backlog); each consumed tick
triggers at most one pass (passes are counted one per tick, sequentially);
shutdown observed at the top of the loop, or winning the select, exits the
loop immediately with no further pass. -/
theorem C6_scheduler_cadence :
    run_db_timer.period_secs = 2100 ∧
    run_db_timer.missed_tick_behavior = MissedTickBehavior.Skip ∧
    (∀ iters : List IterationInput,
      (run iters).2 ≤
        (iters.filter (fun it => !it.shutdown_triggered && !it.select_shutdown)).length) ∧
    (∀ (it : IterationInput) (rest : List IterationInput),
      it.shutdown_triggered = true → run (it :: rest) = (RunOutcome.stopped, 0)) ∧
    (∀ (it : IterationInput) (rest : List IterationInput),
      it.shutdown_triggered = false → it.select_shutdown = true →
      run (it :: rest) = (RunOutcome.stopped, 0)) := by
  refine ⟨by decide, by decide, ?_, ?_, ?_⟩
  · intro iters
    induction iters with
    | nil => simp [run]
    | cons it rest ih =>
      rcases h1 : it.shutdown_triggered with _ | _
      · rcases h2 : it.select_shutdown with _ | _
        · rcases hpair : handle_db_tick it.tickEnv with ⟨res, tr⟩
          rcases res with e | u
          · simp [run, h1, h2, hpair, List.filter_cons]
          · simp only [run, h1, h2, hpair, List.filter_cons]
            simp [h1, h2]
            omega
        · simp [run, h1, h2, List.filter_cons]
      · simp [run, h1, List.filter_cons]
  · intro it rest h1
    simp [run, h1]
  · intro it rest h1 h2
    simp [run, h1, h2]

/-- C6 witness: a loop whose first iteration sees the shutdown signal
already triggered stops with zero passes. -/
theorem C6_scheduler_cadence_witness :
    run [{ shutdown_triggered := true, select_shutdown := false, tickEnv := testTickEnv }]
      = (RunOutcome.stopped, 0) :=
  C6_scheduler_cadence.2.2.2.1
    { shutdown_triggered := true, select_shutdown := false, tickEnv := testTickEnv } [] rfl

/-- A record whose decode, sink and delete would all succeed. -/
def c3spec : RecordSpec := { decodeOk := true, sinkOk := true, deleteOk := true }

/-- The C3 execution, frozen at the select's shutdown win: the worker was
launched, its archive was accepted and its delete issued (in flight), then
the shutdown branch won the race and the pool future was dropped. -/
def c3final : PoolState :=
  { remaining := [], tasks := [sinkResume (launchTask c3spec)], shutdown := true,
    dropped := true, returned := true }

lemma c3_reachable : Reachable [c3spec] c3final := by
  have h0 : Reachable [c3spec] (initPool [c3spec]) := Reachable.init
  have h1 : Reachable [c3spec]
      { remaining := [], tasks := [launchTask c3spec], shutdown := false,
        dropped := false, returned := false } :=
    Reachable.step h0 (Step.launch _ c3spec [] rfl rfl rfl (by decide))
  have h2 : Reachable [c3spec]
      { remaining := [], tasks := [sinkResume (launchTask c3spec)], shutdown := false,
        dropped := false, returned := false } :=
    Reachable.step h1 (Step.sinkStep _ 0 (launchTask c3spec) (by decide) (by decide) rfl rfl)
  have h3 : Reachable [c3spec]
      { remaining := [], tasks := [sinkResume (launchTask c3spec)], shutdown := true,
        dropped := false, returned := false } :=
    Reachable.step h2 (Step.shutdownFire _ rfl)
  exact Reachable.step h3 (Step.shutdownWin _ rfl rfl)

/-- C3 counterexample: one stale record, its archive accepted and its
delete in flight, when the shutdown branch wins the `tokio::select!`: the
pool future is dropped and the pass returns with the worker cancelled
between archive and delete — refuting the claim that every in-flight
reconciliation completes its full archive-then-delete sequence before the
pass returns. -/
theorem C3_counterexample :
    Reachable [c3spec] c3final ∧ c3final.returned = true ∧
    (sinkResume (launchTask c3spec)) ∈ c3final.tasks ∧
    (sinkResume (launchTask c3spec)).archived = true ∧
    (sinkResume (launchTask c3spec)).deleteDone = false ∧
    (sinkResume (launchTask c3spec)).phase ≠ TaskPhase.finished ∧
    ¬ (∀ (rs : List RecordSpec) (s : PoolState), Reachable rs s → s.returned = true →
        ∀ t ∈ s.tasks, t.phase = TaskPhase.finished) := by
  refine ⟨c3_reachable, rfl, by decide, by decide, by decide, by decide, ?_⟩
  intro hclaim
  have h := hclaim [c3spec] c3final c3_reachable rfl (sinkResume (launchTask c3spec)) (by decide)
  exact absurd h (by decide)

/-- C3 (amended): if the shutdown signal fires while reconciliations are in
flight, the pool launches no new reconciliation; when the shutdown branch
wins the select the pool future is dropped and the pass returns at once —
in-flight reconciliations are cancelled at their current await point, not
run to completion; a cancelled record may be left archived but not deleted
(its row stays in the store for a later pass), and even under cancellation
no record's delete is ever issued before its archive was accepted. -/
theorem C3_shutdown_cancellation :
    (∀ (s s' : PoolState), Step s s' → s.dropped = true →
        s'.tasks = s.tasks ∧ s'.remaining = s.remaining)
  ∧ (∀ (s : PoolState), s.shutdown = true → s.returned = false →
        Step s { s with dropped := true, returned := true })
  ∧ (∀ (rs : List RecordSpec) (s : PoolState), Reachable rs s →
        ∀ t ∈ s.tasks, t.deleteIssued = true → t.archived = true) :=
  ⟨fun _ _ h hd => step_frozen_of_dropped h hd,
   fun s h1 h2 => Step.shutdownWin s h1 h2,
   fun _ _ h => pool_write_before_delete h⟩

/-- The in-flight state just before the C3 shutdown win. -/
def c3stuck : PoolState :=
  { remaining := [], tasks := [sinkResume (launchTask c3spec)], shutdown := true,
    dropped := false, returned := false }

/-- C3 witness: from the concrete in-flight state with shutdown triggered,
the shutdown branch can win the select, dropping the pool. -/
theorem C3_shutdown_cancellation_witness :
    Step c3stuck { c3stuck with dropped := true, returned := true } :=
  C3_shutdown_cancellation.2.1 c3stuck rfl rfl

/-- A record whose decode fails. -/
def c4fail : RecordSpec := { decodeOk := false, sinkOk := true, deleteOk := true }

/-- A record whose whole pipeline succeeds. -/
def c4ok : RecordSpec := { decodeOk := true, sinkOk := true, deleteOk := true }

/-- Completed pool over `[c4fail, c4ok]`: the first worker failed its
decode, the second was archived and deleted, and the pool completed. -/
def c4final : PoolState :=
  { remaining := [],
    tasks := [launchTask c4fail, deleteResume (sinkResume (launchTask c4ok))],
    shutdown := false, dropped := false, returned := true }

lemma c4_reachable : Reachable [c4fail, c4ok] c4final := by
  have h0 : Reachable [c4fail, c4ok] (initPool [c4fail, c4ok]) := Reachable.init
  have h1 : Reachable [c4fail, c4ok]
      { remaining := [c4ok], tasks := [launchTask c4fail], shutdown := false,
        dropped := false, returned := false } :=
    Reachable.step h0 (Step.launch _ c4fail [c4ok] rfl rfl rfl (by decide))
  have h2 : Reachable [c4fail, c4ok]
      { remaining := [], tasks := [launchTask c4fail, launchTask c4ok], shutdown := false,
        dropped := false, returned := false } :=
    Reachable.step h1 (Step.launch _ c4ok [] rfl rfl rfl (by decide))
  have h3 : Reachable [c4fail, c4ok]
      { remaining := [], tasks := [launchTask c4fail, sinkResume (launchTask c4ok)],
        shutdown := false, dropped := false, returned := false } :=
    Reachable.step h2 (Step.sinkStep _ 1 (launchTask c4ok) (by decide) (by decide) rfl rfl)
  have h4 : Reachable [c4fail, c4ok]
      { remaining := [],
        tasks := [launchTask c4fail, deleteResume (sinkResume (launchTask c4ok))],
        shutdown := false, dropped := false, returned := false } :=
    Reachable.step h3
      (Step.deleteStep _ 1 (sinkResume (launchTask c4ok)) (by decide) (by decide) rfl rfl)
  exact Reachable.step h4 (Step.handlerComplete _ rfl (by decide) rfl rfl)

/-- C4: per-record failures are isolated within a pass: in every reachable
pool state at most `PURGER_WORKERS = 40` reconciliations are in flight;
when the pool completes, every record of the stale set was processed and
each record's disposition (archived, deleted) is exactly what its own
decode/sink/delete outcomes dictate, unaffected by sibling failures; and
per-record outcomes never make the pass itself fail. -/
theorem C4_isolation_and_cap :
    (∀ (rs : List RecordSpec) (s : PoolState), Reachable rs s →
        inFlightCount s ≤ PURGER_WORKERS)
  ∧ PURGER_WORKERS = 40
  ∧ (∀ (rs : List RecordSpec) (s : PoolState), Reachable rs s → s.returned = true →
        s.dropped = false →
        s.remaining = [] ∧ ∀ t ∈ s.tasks, t.phase = TaskPhase.finished ∧
          t.archived = (t.spec.decodeOk && t.spec.sinkOk) ∧
          t.deleteDone = (t.spec.decodeOk && t.spec.sinkOk && t.spec.deleteOk))
  ∧ (∀ (env : TickEnv) (bs ws : List Report),
        env.get_stale_pending_beacons (env.base_stale_period + BEACON_STALE_PERIOD)
            = Except.ok bs →
        env.get_stale_pending_witnesses (env.base_stale_period + WITNESS_STALE_PERIOD)
            = Except.ok ws →
        (handle_db_tick env).1 = Except.ok ()) :=
  ⟨fun _ _ h => (pool_inv h).cap, rfl,
   fun _ _ h hr hd => pool_complete_normal h hr hd,
   fun _ _ _ hb hw => by simp [handle_db_tick, hb, hw]⟩

/-- C4 witness: in the completed concrete pool, the record whose decode
failed left its row alone while its sibling was archived and deleted. -/
theorem C4_isolation_and_cap_witness :
    c4final.remaining = [] ∧ ∀ t ∈ c4final.tasks, t.phase = TaskPhase.finished ∧
      t.archived = (t.spec.decodeOk && t.spec.sinkOk) ∧
      t.deleteDone = (t.spec.decodeOk && t.spec.sinkOk && t.spec.deleteOk) :=
  C4_isolation_and_cap.2.2.1 [c4fail, c4ok] c4final c4_reachable rfl rfl

end Purger
